import Mathlib

/-
  Verification of the stock-analysis application (app.py).

  The program is a linear pipeline: quote fetch (yfinance), news search
  (DuckDuckGo), prompt construction, chat completion (OpenAI), rendering
  (Streamlit).  We embed it shallowly: the three external providers become
  an `Env` of oracle functions (returning `none`/`Option.none` where the
  Python call would raise an exception), and the module-level "Analyze"
  button handler becomes `analyzeClick`, which returns the trace of
  external calls issued, the sequence of display actions performed, and
  whether the invocation ended in an uncaught exception.

  Python numbers are modelled as rationals; Python's number-to-string
  conversion is modelled by the deterministic `numStr`.
-/

namespace StockApp

/-- A value in a provider response: a Python number (modelled as ℚ) or a
Python string. -/
inductive Val where
  | num (q : ℚ)
  | str (s : String)
deriving DecidableEq, Repr

/-- The literal unavailable marker `'N/A'` used by `get_stock_info`. -/
def naVal : Val := Val.str "N/A"

/-- Model of Python's number-to-string conversion for our rational model of
numbers (deterministic stand-in for `str(x)` on a number). -/
def numStr (q : ℚ) : String :=
  if q.den = 1 then toString q.num else toString q.num ++ "/" ++ toString q.den

/-- Python `str(v)` on a field value. -/
def pyStr : Val → String
  | Val.num q => numStr q
  | Val.str s => s

/-- Python `repr(v)` on a field value, as used when a dict is converted with
`str`: strings are quoted, numbers are not. -/
def pyRepr : Val → String
  | Val.num q => numStr q
  | Val.str s => "\x27" ++ s ++ "\x27"

/-- Python `str` of a dict with string keys, given its key/value pairs in
insertion order: `{'k1': v1, 'k2': v2, ...}`. -/
def dictStr (pairs : List (String × Val)) : String :=
  "\x7b" ++
    String.intercalate ", "
      (pairs.map fun p => "\x27" ++ p.1 ++ "\x27: " ++ pyRepr p.2) ++
  "\x7d"

/-- The dictionary returned by `get_stock_info` (app.py lines 15-23): seven
fixed keys, in the source's insertion order. -/
structure StockInfo where
  currentPrice : Val
  peRatioVal : Val
  marketCap : Val
  analystRating : Val
  dividendYield : Val
  week52High : Val
  week52Low : Val
deriving DecidableEq, Repr

/-- The key/value pairs of the `get_stock_info` dict, in insertion order
(keys exactly as written in app.py). -/
def StockInfo.toPairs (s : StockInfo) : List (String × Val) :=
  [("currentPrice", s.currentPrice),
   ("peRatio", s.peRatioVal),
   ("marketCap", s.marketCap),
   ("analystRating", s.analystRating),
   ("dividendYield", s.dividendYield),
   ("52WeekHigh", s.week52High),
   ("52WeekLow", s.week52Low)]

/-- The seven dict keys of a Quote Snapshot, in order. -/
def sevenNames : List String :=
  ["currentPrice", "peRatio", "marketCap", "analystRating", "dividendYield",
   "52WeekHigh", "52WeekLow"]

/-- The provider-side keys `get_stock_info` reads from `stock.info`, in the
same order as `sevenNames`. -/
def providerKeys : List String :=
  ["currentPrice", "trailingPE", "marketCap", "recommendationMean",
   "dividendYield", "fiftyTwoWeekHigh", "fiftyTwoWeekLow"]

/-- Builds the `get_stock_info` dict from a provider `info` mapping
(`info.get(key, 'N/A')` for each field, app.py lines 16-22). -/
def mkStockInfo (info : String → Option Val) : StockInfo :=
  { currentPrice := (info "currentPrice").getD naVal
    peRatioVal := (info "trailingPE").getD naVal
    marketCap := (info "marketCap").getD naVal
    analystRating := (info "recommendationMean").getD naVal
    dividendYield := (info "dividendYield").getD naVal
    week52High := (info "fiftyTwoWeekHigh").getD naVal
    week52Low := (info "fiftyTwoWeekLow").getD naVal }

/-- A news search result: a dict with `title` and `body` fields. -/
structure NewsItem where
  title : String
  body : String
deriving DecidableEq, Repr

/-- One serialized news line, `- <title>: <body>` (app.py line 57). -/
def newsLine (a : NewsItem) : String :=
  "- " ++ a.title ++ ": " ++ a.body

/-- `"\n".join(f"- {title}: {body}" for ...)` (app.py line 57). -/
def newsJoin (articles : List NewsItem) : String :=
  String.intercalate "\n" (articles.map newsLine)

/-- The system-prompt template (app.py lines 34-48) up to the
`{stock_info}` placeholder. -/
def sysPartA : String :=
  "You are an expert Indian financial analyst. Analyze the given stock information and news articles to answer the query.\n    \n    Stock Information:\n    "

/-- The system-prompt template between the `{stock_info}` and
`{news_articles}` placeholders. -/
def sysPartB : String :=
  "\n    \n    Recent News:\n    "

/-- The system-prompt template after the `{news_articles}` placeholder. -/
def sysPartC : String :=
  "\n    \n    Follow these guidelines:\n    1. Present key metrics clearly\n    2. Highlight relevant news impacts\n    3. Mention market trends if applicable\n    4. Maintain professional tone\n    5. Never provide direct investment advice unless explicitly asked\n    "

/-- The formatted system message content:
`system_prompt.format(stock_info=str(stock_info), news_articles=...)`
(app.py lines 55-58). -/
def systemContent (si : StockInfo) (articles : List NewsItem) : String :=
  sysPartA ++ dictStr si.toPairs ++ sysPartB ++ newsJoin articles ++ sysPartC

/-- The user message content (app.py line 50). -/
def userPromptText (query : String) : String :=
  "Query: " ++ query ++ "\n\nProvide detailed analysis:"

/-- A role-tagged chat message. -/
structure Message where
  role : String
  content : String
deriving DecidableEq, Repr

/-- The request sent to the chat-completion endpoint (app.py lines 52-62):
model identifier, ordered messages, sampling temperature. -/
structure ChatRequest where
  model : String
  messages : List Message
  temperature : ℚ
deriving DecidableEq, Repr

/-- Builds the chat-completion request of `generate_response`
(app.py lines 52-62). -/
def buildRequest (query : String) (si : StockInfo) (articles : List NewsItem) :
    ChatRequest :=
  { model := "gpt-4-turbo"
    messages :=
      [{ role := "system", content := systemContent si articles },
       { role := "user", content := userPromptText query }]
    temperature := 3 / 10 }

/-- The external providers, as oracles.  `none` models the Python call
raising an exception; for the chat completion, `some choices` gives the
message content of each completion choice in order. -/
structure Env where
  quoteInfo : String → Option (String → Option Val)
  searchResults : String → Nat → Option (List NewsItem)
  chatCompletion : ChatRequest → Option (List String)

/-- `get_stock_info` (app.py lines 10-25): builds the seven-field dict, or
returns `None` when the provider call raises. -/
def get_stock_info (env : Env) (symbol : String) : Option StockInfo :=
  (env.quoteInfo symbol).map mkStockInfo

/-- The search text `f"{company_name} stock news"` (app.py line 30). -/
def searchText (company : String) : String :=
  company ++ " stock news"

/-- `get_news_articles` (app.py lines 27-30): one text search with
`max_results=5`; the list comprehension keeps the provider's results
verbatim.  `none` models an uncaught provider exception. -/
def get_news_articles (env : Env) (company : String) : Option (List NewsItem) :=
  env.searchResults (searchText company) 5

/-- `generate_response` (app.py lines 32-63) as far as its return value:
the content of the first completion choice; `none` models either a provider
exception or the IndexError on an empty choice list. -/
def generate_response (env : Env) (query : String) (si : StockInfo)
    (articles : List NewsItem) : Option String :=
  (env.chatCompletion (buildRequest query si articles)).bind List.head?

/-- Model of Python `str.upper()` (ASCII): uppercase every character. -/
def toUpperStr (s : String) : String :=
  ⟨s.data.map Char.toUpper⟩

/-- Model of Python `symbol.split('.')[0]`: the characters before the first
dot (app.py line 85). -/
def splitDotHead (s : String) : String :=
  ⟨s.data.takeWhile (fun c => c ≠ '.')⟩

/-- Floor of a rational, computed directly on numerator and denominator
(the denominator of a `ℚ` is positive, so `Int.fdiv` is the floor). -/
def qfloor (q : ℚ) : ℤ := Int.fdiv q.num q.den

/-- Python's `f"...{x:.2f}..."` two-decimal fixed-point formatting, modelled
on rationals with round-half-up. -/
def format2f (q : ℚ) : String :=
  let n : ℤ := qfloor (q * 100 + 1 / 2)
  let sign := if n < 0 then "-" else ""
  let m := n.natAbs
  sign ++ toString (m / 100) ++ "." ++
    (if m % 100 < 10 then "0" else "") ++ toString (m % 100)

/-- The Market Cap metric string (app.py line 98):
`f"₹{v/1e7:.2f} Cr" if v != 'N/A' else 'N/A'`.  `none` models the TypeError
Python would raise dividing a non-`'N/A'` string by `1e7`. -/
def marketCapDisplay (v : Val) : Option String :=
  if v = naVal then some "N/A"
  else
    match v with
    | Val.num q => some ("₹" ++ format2f (q / 10000000) ++ " Cr")
    | Val.str _ => none

/-- An external call issued by the pipeline. -/
inductive Call where
  | quote (symbol : String)
  | search (text : String) (maxResults : Nat)
  | chat (req : ChatRequest)
deriving DecidableEq, Repr

/-- Whether a call is a news-search request. -/
def Call.isSearch : Call → Bool
  | Call.search _ _ => true
  | _ => false

/-- Whether a call is a chat-completion request. -/
def Call.isChat : Call → Bool
  | Call.chat _ => true
  | _ => false

/-- A display action performed by the Streamlit layer. -/
inductive Display where
  | warning (msg : String)
  | error (msg : String)
  | subheader (s : String)
  | write (s : String)
  | metric (label : String) (value : Val)
  | caption (s : String)
deriving DecidableEq, Repr

/-- One invocation's observable behaviour: external calls in order, display
actions in order, and whether an exception escaped uncaught. -/
structure Trace where
  calls : List Call
  displays : List Display
  crashed : Bool
deriving DecidableEq, Repr

/-- The result-rendering block (app.py lines 92-104): display actions in
order, and whether rendering crashed (TypeError in the Market Cap
f-string).  Actions before the crash point are still shown. -/
def renderDisplays (symbol analysis : String) (si : StockInfo)
    (articles : List NewsItem) : List Display × Bool :=
  let pre :=
    [Display.subheader ("Analysis for " ++ symbol),
     Display.write analysis,
     Display.subheader "Key Metrics",
     Display.metric "P/E Ratio" si.peRatioVal]
  match marketCapDisplay si.marketCap with
  | none => (pre, true)
  | some mc =>
    (pre ++
      [Display.metric "Market Cap" (Val.str mc),
       Display.metric "Current Price" (Val.str ("₹" ++ pyStr si.currentPrice)),
       Display.subheader "Recent News Highlights"] ++
      List.flatten ((articles.take 3).map fun a =>
        [Display.write ("📰 **" ++ a.title ++ "**"), Display.caption a.body]),
     false)

/-- The "Analyze" button handler (app.py lines 75-106).  `symbolInput` is
the raw text field content; line 71 uppercases it before use. -/
def analyzeClick (env : Env) (symbolInput query : String) : Trace :=
  let symbol := toUpperStr symbolInput
  if symbol = "" ∨ query = "" then
    { calls := [],
      displays := [Display.warning "Please enter both stock symbol and query"],
      crashed := false }
  else
    match get_stock_info env symbol with
    | none =>
      { calls := [Call.quote symbol],
        displays := [Display.error "Invalid stock symbol or data unavailable"],
        crashed := false }
    | some si =>
      let company := splitDotHead symbol
      let calls1 := [Call.quote symbol, Call.search (searchText company) 5]
      match get_news_articles env company with
      | none => { calls := calls1, displays := [], crashed := true }
      | some articles =>
        let req := buildRequest query si articles
        let calls2 := calls1 ++ [Call.chat req]
        match env.chatCompletion req with
        | none => { calls := calls2, displays := [], crashed := true }
        | some choices =>
          match choices.head? with
          | none => { calls := calls2, displays := [], crashed := true }
          | some analysis =>
            let p := renderDisplays symbol analysis si articles
            { calls := calls2, displays := p.1, crashed := p.2 }

/-- Specification-side serialization of news items, written from the spec's
words: one `- <title>: <snippet>` line per item, newline-separated, order
preserved, empty sequence yields the empty block.  Compared with the
source-side `newsJoin` in the C7 theorem. -/
def newsBlockSpec : List NewsItem → String
  | [] => ""
  | [a] => newsLine a
  | a :: b :: rest => newsLine a ++ "\n" ++ newsBlockSpec (b :: rest)

/-- Helper for reasoning about `String.intercalate`: the tail of a
separator-joined block. -/
def tailBlock : List String → String
  | [] => ""
  | a :: rest => "\n" ++ a ++ tailBlock rest

/-- A concrete provider field map used in witnesses: price, P/E and market
cap present, all other fields absent. -/
def infoFull : String → Option Val := fun k =>
  if k = "currentPrice" then some (Val.num 2450) else
  if k = "trailingPE" then some (Val.num 25) else
  if k = "marketCap" then some (Val.num 250000000) else none

/-- A concrete provider field map used in witnesses: every field absent. -/
def infoEmpty : String → Option Val := fun _ => none

/-- A concrete news article used in witnesses. -/
def articleW : NewsItem := { title := "T", body := "B" }

/-- A concrete snapshot used in witnesses: every field unavailable. -/
def siW : StockInfo := mkStockInfo (fun _ => none)

/-- Witness environment: every provider call succeeds. -/
def envFull : Env :=
  { quoteInfo := fun _ => some infoFull
    searchResults := fun _ _ => some [articleW]
    chatCompletion := fun _ => some ["ok"] }

/-- Witness environment: quote succeeds with every field unavailable, the
rest succeeds. -/
def envAllNA : Env :=
  { quoteInfo := fun _ => some infoEmpty
    searchResults := fun _ _ => some [articleW]
    chatCompletion := fun _ => some ["ok"] }

/-- Witness environment: the quote provider raises on every symbol. -/
def envQuoteFail : Env :=
  { quoteInfo := fun _ => none
    searchResults := fun _ _ => some [articleW]
    chatCompletion := fun _ => some ["ok"] }

/-- Witness environment: quote succeeds, the news search raises. -/
def envNewsFail : Env :=
  { quoteInfo := fun _ => some infoFull
    searchResults := fun _ _ => none
    chatCompletion := fun _ => some ["ok"] }

theorem intercalate_go_spec :
    ∀ (l : List String) (acc : String),
      String.intercalate.go acc "\n" l = acc ++ tailBlock l := by
  intro l
  induction l with
  | nil => intro acc; simp [String.intercalate.go, tailBlock]
  | cons a as ih =>
    intro acc
    simp [String.intercalate.go, tailBlock, ih, String.append_assoc]

theorem newsJoin_cons (a : NewsItem) (l : List NewsItem) :
    newsJoin (a :: l) = newsLine a ++ tailBlock (l.map newsLine) := by
  simp [newsJoin, String.intercalate, intercalate_go_spec]

theorem newsJoin_eq_newsBlockSpec : ∀ (l : List NewsItem),
    newsJoin l = newsBlockSpec l := by
  intro l
  induction l with
  | nil => rfl
  | cons a rest ih =>
    cases rest with
    | nil => simp [newsJoin_cons, newsBlockSpec, tailBlock]
    | cons b rest2 =>
      rw [newsJoin_cons] at ih ⊢
      simp only [List.map_cons, tailBlock, newsBlockSpec, ← ih,
        String.append_assoc]

/-- C1: for every quote fetch that succeeds, the returned snapshot has
exactly the seven named fields in order (`currentPrice`, `peRatio`,
`marketCap`, `analystRating`, `dividendYield`, `52WeekHigh`, `52WeekLow`),
and each field equals the provider's value when the provider has one and
the literal `'N/A'` marker when it does not — never null or absent. -/
theorem c1_snapshot_seven_fields_na_defaults
    (env : Env) (symbol : String) (info : String → Option Val)
    (h : env.quoteInfo symbol = some info) :
    ∃ si, get_stock_info env symbol = some si ∧
      si.toPairs.map Prod.fst = sevenNames ∧
      ∀ p ∈ si.toPairs.zip providerKeys,
        (info p.2 = none → p.1.2 = naVal) ∧
        ∀ v, info p.2 = some v → p.1.2 = v := by
  refine ⟨mkStockInfo info, by simp [get_stock_info, h], by rfl, ?_⟩
  intro p hp
  simp only [mkStockInfo, StockInfo.toPairs, providerKeys, List.zip,
    List.zipWith, List.mem_cons, List.not_mem_nil, or_false] at hp
  rcases hp with h1 | h1 | h1 | h1 | h1 | h1 | h1 <;> subst h1 <;>
    exact ⟨fun h0 => by simp [h0], fun v hv => by simp [hv]⟩

theorem c1_witness :
    ∃ si, get_stock_info envFull "TCS.NS" = some si ∧
      si.toPairs.map Prod.fst = sevenNames ∧
      ∀ p ∈ si.toPairs.zip providerKeys,
        (infoFull p.2 = none → p.1.2 = naVal) ∧
        ∀ v, infoFull p.2 = some v → p.1.2 = v :=
  c1_snapshot_seven_fields_na_defaults envFull "TCS.NS" infoFull rfl

/-- C5: the Prompt Builder is pure and deterministic — two calls on
identical snapshot, news sequence and query text produce byte-identical
system and user text blocks. -/
theorem c5_prompt_builder_deterministic
    (q1 q2 : String) (si1 si2 : StockInfo) (a1 a2 : List NewsItem)
    (hq : q1 = q2) (hsi : si1 = si2) (ha : a1 = a2) :
    systemContent si1 a1 = systemContent si2 a2 ∧
      userPromptText q1 = userPromptText q2 := by
  subst hq; subst hsi; subst ha; exact ⟨rfl, rfl⟩

theorem c5_witness :
    systemContent siW [articleW] = systemContent siW [articleW] ∧
      userPromptText "why" = userPromptText "why" :=
  c5_prompt_builder_deterministic "why" "why" siW siW [articleW] [articleW]
    rfl rfl rfl

/-- C7: the system text block serializes the news items as one
`- <title>: <snippet>` line per item, newline-separated, preserving the
sequence order, and an empty sequence yields an empty news block. -/
theorem c7_news_serialized_one_line_per_item
    (si : StockInfo) (articles : List NewsItem) :
    systemContent si articles =
      sysPartA ++ dictStr si.toPairs ++ sysPartB ++
        newsBlockSpec articles ++ sysPartC ∧
    newsBlockSpec ([] : List NewsItem) = "" := by
  exact ⟨by simp [systemContent, newsJoin_eq_newsBlockSpec], rfl⟩

/-- C8: every chat-completion request holds exactly one message of role
`"system"` (persona plus serialized context) followed by exactly one of
role `"user"` (the query), with the fixed temperature `0.3`, and the
returned result is the first completion choice's text verbatim. -/
theorem c8_request_shape_and_first_choice
    (env : Env) (query : String) (si : StockInfo) (articles : List NewsItem) :
    (buildRequest query si articles).messages =
      [{ role := "system", content := systemContent si articles },
       { role := "user", content := userPromptText query }] ∧
    (buildRequest query si articles).temperature = 3 / 10 ∧
    ∀ c cs, env.chatCompletion (buildRequest query si articles) = some (c :: cs) →
      generate_response env query si articles = some c := by
  refine ⟨rfl, rfl, ?_⟩
  intro c cs h
  simp [generate_response, h]

theorem c8_witness :
    generate_response envFull "why" siW [articleW] = some "ok" :=
  (c8_request_shape_and_first_choice envFull "why" siW [articleW]).2.2
    "ok" [] rfl

/-- C2: whenever the quote fetch fails, the handler shows the single
generic error, does not crash, and issues no news-search call and no
chat-completion call. -/
theorem c2_quote_failure_short_circuits
    (env : Env) (symbolInput query : String)
    (hs : toUpperStr symbolInput ≠ "") (hq : query ≠ "")
    (hfail : env.quoteInfo (toUpperStr symbolInput) = none) :
    (analyzeClick env symbolInput query).displays =
      [Display.error "Invalid stock symbol or data unavailable"] ∧
    (analyzeClick env symbolInput query).crashed = false ∧
    (∀ t n, Call.search t n ∉ (analyzeClick env symbolInput query).calls) ∧
    (∀ r, Call.chat r ∉ (analyzeClick env symbolInput query).calls) := by
  have hcond : ¬(toUpperStr symbolInput = "" ∨ query = "") := by simp [hs, hq]
  simp [analyzeClick, hcond, get_stock_info, hfail]

theorem c2_witness :
    (analyzeClick envQuoteFail "FAKE.NS" "why").displays =
      [Display.error "Invalid stock symbol or data unavailable"] ∧
    (analyzeClick envQuoteFail "FAKE.NS" "why").crashed = false ∧
    (∀ t n, Call.search t n ∉ (analyzeClick envQuoteFail "FAKE.NS" "why").calls) ∧
    (∀ r, Call.chat r ∉ (analyzeClick envQuoteFail "FAKE.NS" "why").calls) :=
  c2_quote_failure_short_circuits envQuoteFail "FAKE.NS" "why"
    (by decide) (by decide) rfl

/-- C3: whenever the ticker symbol or the query text is empty, the handler
performs no external call at all and shows the warning instead. -/
theorem c3_empty_input_no_calls
    (env : Env) (symbolInput query : String)
    (h : symbolInput = "" ∨ query = "") :
    analyzeClick env symbolInput query =
      { calls := [],
        displays := [Display.warning "Please enter both stock symbol and query"],
        crashed := false } := by
  have hcond : toUpperStr symbolInput = "" ∨ query = "" := by
    rcases h with h | h
    · left; rw [h]; rfl
    · right; exact h
  simp [analyzeClick, hcond]

theorem c3_witness :
    analyzeClick envFull "" "anything" =
      { calls := [],
        displays := [Display.warning "Please enter both stock symbol and query"],
        crashed := false } :=
  c3_empty_input_no_calls envFull "" "anything" (Or.inl rfl)

/-- C9: whenever the news fetch fails after a successful quote fetch, the
exception escapes uncaught (the invocation crashes), no chat-completion
call is made, and nothing is rendered. -/
theorem c9_news_failure_uncaught
    (env : Env) (symbolInput query : String) (info : String → Option Val)
    (hs : toUpperStr symbolInput ≠ "") (hq : query ≠ "")
    (hinfo : env.quoteInfo (toUpperStr symbolInput) = some info)
    (hfail : env.searchResults
        (searchText (splitDotHead (toUpperStr symbolInput))) 5 = none) :
    analyzeClick env symbolInput query =
      { calls := [Call.quote (toUpperStr symbolInput),
                  Call.search (searchText (splitDotHead (toUpperStr symbolInput))) 5],
        displays := [], crashed := true } := by
  have hcond : ¬(toUpperStr symbolInput = "" ∨ query = "") := by simp [hs, hq]
  simp [analyzeClick, hcond, get_stock_info, get_news_articles, hinfo, hfail]

theorem c9_witness :
    analyzeClick envNewsFail "TCS.NS" "why" =
      { calls := [Call.quote "TCS.NS", Call.search "TCS stock news" 5],
        displays := [], crashed := true } :=
  c9_news_failure_uncaught envNewsFail "TCS.NS" "why" infoFull
    (by decide) (by decide) rfl rfl

/-- C4: for every non-empty symbol/query pair whose quote fetch succeeds,
exactly one news request is issued, for the text
`<company name> stock news` with the company name the ticker stripped of
its exchange suffix, with a five-result cap; and (under the provider's cap
contract) the resulting sequence is the provider's list verbatim — order
preserved — of length at most five. -/
theorem c4_single_capped_news_request
    (env : Env) (symbolInput query : String) (info : String → Option Val)
    (hs : toUpperStr symbolInput ≠ "") (hq : query ≠ "")
    (hinfo : env.quoteInfo (toUpperStr symbolInput) = some info)
    (hcap : ∀ t l, env.searchResults t 5 = some l → l.length ≤ 5) :
    (analyzeClick env symbolInput query).calls.filter Call.isSearch =
      [Call.search (searchText (splitDotHead (toUpperStr symbolInput))) 5] ∧
    ∀ l, env.searchResults
          (searchText (splitDotHead (toUpperStr symbolInput))) 5 = some l →
        get_news_articles env (splitDotHead (toUpperStr symbolInput)) = some l ∧
        l.length ≤ 5 := by
  have hcond : ¬(toUpperStr symbolInput = "" ∨ query = "") := by simp [hs, hq]
  constructor
  · rcases hsearch : env.searchResults
        (searchText (splitDotHead (toUpperStr symbolInput))) 5 with _ | articles
    · simp [analyzeClick, hcond, get_stock_info, get_news_articles, hinfo,
        hsearch, Call.isSearch]
    · rcases hchat : env.chatCompletion
          (buildRequest query (mkStockInfo info) articles) with _ | choices
      · simp [analyzeClick, hcond, get_stock_info, get_news_articles, hinfo,
          hsearch, hchat, Call.isSearch]
      · rcases choices with _ | ⟨c, cs⟩ <;>
          simp [analyzeClick, hcond, get_stock_info, get_news_articles, hinfo,
            hsearch, hchat, Call.isSearch, renderDisplays]
  · intro l hl
    exact ⟨hl, hcap _ _ hl⟩

theorem c4_witness :
    (analyzeClick envFull "TCS.NS" "why").calls.filter Call.isSearch =
      [Call.search "TCS stock news" 5] ∧
    ∀ l, envFull.searchResults "TCS stock news" 5 = some l →
        get_news_articles envFull "TCS" = some l ∧ l.length ≤ 5 :=
  c4_single_capped_news_request envFull "TCS.NS" "why" infoFull
    (by decide) (by decide) rfl
    (by intro t l hl; injection hl with h; subst h; decide)

/-- C6: on the success path, the displayed Market Cap metric equals the
numeric market cap divided by 10,000,000 formatted to two decimal places
with the `Cr` currency-scale suffix when the value is numeric, and the
string `"N/A"` verbatim when the field holds the unavailable marker. -/
theorem c6_market_cap_display
    (env : Env) (symbolInput query : String) (info : String → Option Val)
    (articles : List NewsItem) (analysis : String) (rest : List String)
    (hs : toUpperStr symbolInput ≠ "") (hq : query ≠ "")
    (hinfo : env.quoteInfo (toUpperStr symbolInput) = some info)
    (hnews : env.searchResults
        (searchText (splitDotHead (toUpperStr symbolInput))) 5 = some articles)
    (hchat : env.chatCompletion (buildRequest query (mkStockInfo info) articles) =
        some (analysis :: rest)) :
    (∀ q : ℚ, (mkStockInfo info).marketCap = Val.num q →
        Display.metric "Market Cap"
            (Val.str ("₹" ++ format2f (q / 10000000) ++ " Cr"))
          ∈ (analyzeClick env symbolInput query).displays) ∧
    ((mkStockInfo info).marketCap = naVal →
        Display.metric "Market Cap" (Val.str "N/A")
          ∈ (analyzeClick env symbolInput query).displays) := by
  have hcond : ¬(toUpperStr symbolInput = "" ∨ query = "") := by simp [hs, hq]
  constructor
  · intro q hmc
    simp [analyzeClick, hcond, get_stock_info, get_news_articles, hinfo,
      hnews, hchat, renderDisplays, marketCapDisplay, hmc, naVal]
  · intro hmc
    simp [analyzeClick, hcond, get_stock_info, get_news_articles, hinfo,
      hnews, hchat, renderDisplays, marketCapDisplay, hmc, naVal]

theorem c6_witness :
    (∀ q : ℚ, (mkStockInfo infoFull).marketCap = Val.num q →
        Display.metric "Market Cap"
            (Val.str ("₹" ++ format2f (q / 10000000) ++ " Cr"))
          ∈ (analyzeClick envFull "TCS.NS" "why").displays) ∧
    ((mkStockInfo infoFull).marketCap = naVal →
        Display.metric "Market Cap" (Val.str "N/A")
          ∈ (analyzeClick envFull "TCS.NS" "why").displays) :=
  c6_market_cap_display envFull "TCS.NS" "why" infoFull [articleW] "ok" []
    (by decide) (by decide) rfl rfl rfl

/-- C10: on the success path, the Current Price metric is rendered with the
currency prefix applied unconditionally to the raw field value, so when the
current price is unavailable the metric shows the string `"₹N/A"` — the
price rendering, unlike the market-cap one, does not special-case the
unavailable marker. -/
theorem c10_current_price_prefix_unconditional
    (env : Env) (symbolInput query : String) (info : String → Option Val)
    (articles : List NewsItem) (analysis : String) (rest : List String)
    (mc : String)
    (hs : toUpperStr symbolInput ≠ "") (hq : query ≠ "")
    (hinfo : env.quoteInfo (toUpperStr symbolInput) = some info)
    (hnews : env.searchResults
        (searchText (splitDotHead (toUpperStr symbolInput))) 5 = some articles)
    (hchat : env.chatCompletion (buildRequest query (mkStockInfo info) articles) =
        some (analysis :: rest))
    (hmc : marketCapDisplay (mkStockInfo info).marketCap = some mc) :
    Display.metric "Current Price"
        (Val.str ("₹" ++ pyStr (mkStockInfo info).currentPrice))
      ∈ (analyzeClick env symbolInput query).displays ∧
    ((mkStockInfo info).currentPrice = naVal →
        Display.metric "Current Price" (Val.str "₹N/A")
          ∈ (analyzeClick env symbolInput query).displays) := by
  have hcond : ¬(toUpperStr symbolInput = "" ∨ query = "") := by simp [hs, hq]
  have hmem : Display.metric "Current Price"
      (Val.str ("₹" ++ pyStr (mkStockInfo info).currentPrice))
      ∈ (analyzeClick env symbolInput query).displays := by
    simp [analyzeClick, hcond, get_stock_info, get_news_articles, hinfo,
      hnews, hchat, renderDisplays, hmc]
  refine ⟨hmem, fun hcp => ?_⟩
  have hna : ("₹" ++ pyStr (mkStockInfo info).currentPrice : String) = "₹N/A" := by
    rw [hcp]; rfl
  rw [← hna]
  exact hmem

theorem c10_witness :
    Display.metric "Current Price"
        (Val.str ("₹" ++ pyStr (mkStockInfo infoEmpty).currentPrice))
      ∈ (analyzeClick envAllNA "TCS.NS" "why").displays ∧
    ((mkStockInfo infoEmpty).currentPrice = naVal →
        Display.metric "Current Price" (Val.str "₹N/A")
          ∈ (analyzeClick envAllNA "TCS.NS" "why").displays) :=
  c10_current_price_prefix_unconditional envAllNA "TCS.NS" "why"
    infoEmpty [articleW] "ok" [] "N/A"
    (by decide) (by decide) rfl rfl rfl (by decide)

end StockApp
